import Mathlib

/-!
Verification of the Ebitengine-Chipmunk-HelloWorld program (`main.go`).

The program builds a physics scenario (a dynamic ball above a tilted static
ground segment) and, once per frame, advances the physics world by one fixed
time step while a simulation clock is below a cutoff.  We embed the program's
own code (`NewGame`, `Game.Update`, `Game.Draw`, `Game.Layout`) shallowly,
with real numbers modelled by rationals.  The external physics engine's
`Space.Step` is not part of this repository; the embedding therefore takes the
step function as an explicit parameter wherever the program's behaviour does
not depend on it, and a spec-modelled free-fall integrator is provided for the
claims that do depend on it.  Likewise `ebiten.MaxTPS()` is an external
per-call value, passed to `Game.Update` as an input.
-/

namespace HelloChipmunk

/-- 2D vector (`cp.Vector`). -/
structure Vector where
  x : ℚ
  y : ℚ
deriving DecidableEq, Repr

def Vector.add (v w : Vector) : Vector := ⟨v.x + w.x, v.y + w.y⟩

def Vector.sub (v w : Vector) : Vector := ⟨v.x - w.x, v.y - w.y⟩

def Vector.smul (c : ℚ) (v : Vector) : Vector := ⟨c * v.x, c * v.y⟩

def Vector.dot (v w : Vector) : ℚ := v.x * w.x + v.y * w.y

def Vector.lengthSq (v : Vector) : ℚ := v.dot v

/-- A rigid body (`cp.Body`): mass, moment of inertia, position, velocity.
`isStatic` records whether the body is the space's static body. -/
structure Body where
  isStatic : Bool
  mass : ℚ
  moment : ℚ
  position : Vector
  velocity : Vector
deriving DecidableEq, Repr

/-- A line-segment collision shape (`cp.NewSegment`), attached to a body.
`bodyIsStatic` records whether the body it is attached to is static. -/
structure Segment where
  bodyIsStatic : Bool
  a : Vector
  b : Vector
  radius : ℚ
  friction : ℚ
deriving DecidableEq, Repr

/-- A circle collision shape (`cp.NewCircle`), attached to the ball body. -/
structure Circle where
  radius : ℚ
  offset : Vector
  friction : ℚ
deriving DecidableEq, Repr

/-- The physics world (`cp.Space`): gravity plus the two bodies/shapes this
program adds (the static ground segment and the dynamic ball). -/
structure Space where
  gravity : Vector
  ground : Segment
  ball : Body
  ballShape : Circle
deriving DecidableEq, Repr

/-- The game state (`type Game struct`): the space (which owns the ball body
the Go code also keeps a pointer to) and the simulation clock `time`. -/
structure Game where
  space : Space
  time : ℚ
deriving DecidableEq, Repr

def title : String := "Hello Chipmunk (World)"

def simulateMaxSeconds : ℚ := 6

def screenWidth : ℚ := 800

def screenHeight : ℚ := 600

/-- `cp.MomentForCircle(m, r1, r2, offset)` of the physics library:
`m * (0.5*(r1² + r2²) + |offset|²)`. -/
def momentForCircle (m r1 r2 : ℚ) (offset : Vector) : ℚ :=
  m * ((r1 * r1 + r2 * r2) / 2 + offset.lengthSq)

/-- `NewGame` from `main.go`: gravity `{Y: 100}`, a static ground segment from
`(0,0)` to `(screenWidth, screenHeight)` with friction 1 and radius 0, and a
dynamic ball of mass 1, radius 5, friction 0.7 at
`(screenWidth/2, screenHeight/4)`; the clock starts at 0. -/
def NewGame : Game :=
  let gravity : Vector := ⟨0, 100⟩
  let ground : Segment :=
    { bodyIsStatic := true
      a := ⟨0, 0⟩
      b := ⟨screenWidth, screenHeight⟩
      radius := 0
      friction := 1 }
  let radius : ℚ := 5
  let mass : ℚ := 1
  let moment := momentForCircle mass 0 radius ⟨0, 0⟩
  let ballBody : Body :=
    { isStatic := false
      mass := mass
      moment := moment
      position := ⟨screenWidth / 2, screenHeight / 4⟩
      velocity := ⟨0, 0⟩ }
  let ballShape : Circle := { radius := radius, offset := ⟨0, 0⟩, friction := 0.7 }
  { space := { gravity := gravity, ground := ground, ball := ballBody, ballShape := ballShape }
    time := 0 }

/-- `Game.Update` from `main.go`:

    timeStep := 1.0 / float64(ebiten.MaxTPS())
    g.time += timeStep
    if g.time < simulateMaxSeconds { g.space.Step(timeStep) }
    return nil

`stepFn` stands for the external engine's `Space.Step`; `tps` is the value
`ebiten.MaxTPS()` returns for this call.  The result carries the new game
state, the returned `error` (`none` = `nil`), and the list of time-step values
passed to `Space.Step` during the call (empty when the step is skipped). -/
def Game.Update (stepFn : Space → ℚ → Space) (tps : ℕ) (g : Game) :
    Game × Option String × List ℚ :=
  let timeStep : ℚ := 1 / (tps : ℚ)
  let time1 := g.time + timeStep
  if time1 < simulateMaxSeconds then
    ({ space := stepFn g.space timeStep, time := time1 }, none, [timeStep])
  else
    ({ space := g.space, time := time1 }, none, [])

/-- Colors used by `Game.Draw`. -/
inductive Color
  | black
  | white
deriving DecidableEq, Repr

/-- One rendering command issued by `Game.Draw` to the screen. -/
inductive DrawCmd
  | fill (c : Color)
  | line (x1 y1 x2 y2 : ℚ) (c : Color)
  | image (x y colorScale : ℚ)
  | debugText (t px py vx vy : ℚ)
deriving DecidableEq, Repr

/-- `Game.Draw` from `main.go`: fill black, draw the ground line, draw the
ball image translated to the ball body's position (color scaled by 200/255),
and, while the clock is below the cutoff, print the debug overlay with the
clock and the ball's position and velocity.  The game state is threaded
through explicitly: `Draw` only reads it. -/
def Game.Draw (g : Game) (screen : List DrawCmd) : Game × List DrawCmd :=
  let base : List DrawCmd :=
    [DrawCmd.fill Color.black,
     DrawCmd.line 0 0 screenWidth screenHeight Color.white,
     DrawCmd.image g.space.ball.position.x g.space.ball.position.y (200 / 255)]
  let cmds : List DrawCmd :=
    if g.time < simulateMaxSeconds then
      base ++ [DrawCmd.debugText g.time g.space.ball.position.x g.space.ball.position.y
                 g.space.ball.velocity.x g.space.ball.velocity.y]
    else base
  (g, screen ++ cmds)

/-- `Game.Layout` from `main.go`: ignores both arguments and returns the fixed
screen size. -/
def Game.Layout (_g : Game) (_outsideWidth _outsideHeight : ℤ) : ℤ × ℤ :=
  (800, 600)

/-- Run a sequence of `Update` calls; `tpsSeq` is the value `ebiten.MaxTPS()`
returns at each call.  Returns the final game state and the concatenated list
of time-step values passed to `Space.Step` across the whole run. -/
def runUpdates (stepFn : Space → ℚ → Space) (tpsSeq : List ℕ) (g : Game) :
    Game × List ℚ :=
  match tpsSeq with
  | [] => (g, [])
  | t :: ts =>
      let r := Game.Update stepFn t g
      let rest := runUpdates stepFn ts r.1
      (rest.1, r.2.2 ++ rest.2)

/-- The sequence of (position, velocity) pairs of the ball observed after each
`Update` call of a run. -/
def posVelSeq (stepFn : Space → ℚ → Space) (tpsSeq : List ℕ) (g : Game) :
    List (Vector × Vector) :=
  match tpsSeq with
  | [] => []
  | t :: ts =>
      let g1 := (Game.Update stepFn t g).1
      (g1.space.ball.position, g1.space.ball.velocity) :: posVelSeq stepFn ts g1

def clamp01 (t : ℚ) : ℚ := max 0 (min 1 t)

/-- Squared distance from point `p` to the segment `[a, b]`. -/
def distSqPointSegment (p a b : Vector) : ℚ :=
  let d := b.sub a
  let t := if d.lengthSq = 0 then 0 else clamp01 (((p.sub a).dot d) / d.lengthSq)
  (p.sub (a.add (Vector.smul t d))).lengthSq

/-- Whether the ball shape touches the ground shape: the distance from the
ball's center to the ground segment is at most the sum of the shapes' radii. -/
def ballTouchesGround (s : Space) : Prop :=
  distSqPointSegment s.ball.position s.ground.a s.ground.b ≤
    (s.ballShape.radius + s.ground.radius) ^ 2

instance : DecidablePred ballTouchesGround := fun s =>
  inferInstanceAs (Decidable (distSqPointSegment s.ball.position s.ground.a s.ground.b ≤
    (s.ballShape.radius + s.ground.radius) ^ 2))

/-- Modelled from the spec: the external physics engine's `Space.Step` is not
part of this repository.  Per the spec, during the free-fall phase (before
first contact with the ground shape) the integrator adds `gravity·dt` to the
ball's velocity and advances its position by the new velocity times `dt`
(semi-implicit Euler with the default damping of 1); contact resolution is
outside the free-fall phase the claims address and is modelled as leaving the
space unchanged. -/
def cpStep (s : Space) (dt : ℚ) : Space :=
  if ballTouchesGround s then s
  else
    let v := s.ball.velocity.add (Vector.smul dt s.gravity)
    let p := s.ball.position.add (Vector.smul dt v)
    { s with ball := { s.ball with velocity := v, position := p } }

/-- The concrete run of the program: `n` `Update` calls with the spec-modelled
physics step, `ebiten.MaxTPS()` at its default of 60, starting from `NewGame`. -/
def stepN : ℕ → Game
  | 0 => NewGame
  | n + 1 => (Game.Update cpStep 60 (stepN n)).1

/-- The ball's downward velocity component (the screen's y axis points down,
gravity is `+100` in y). -/
def downwardVelocity (g : Game) : ℚ := g.space.ball.velocity.y

end HelloChipmunk

namespace HelloChipmunk

/-! ## Helper lemmas -/

lemma update_time (stepFn : Space → ℚ → Space) (tps : ℕ) (g : Game) :
    (Game.Update stepFn tps g).1.time = g.time + 1 / (tps : ℚ) := by
  simp only [Game.Update]
  split <;> rfl

lemma update_trace (stepFn : Space → ℚ → Space) (tps : ℕ) (g : Game) :
    (Game.Update stepFn tps g).2.2 = [] ∨
    (Game.Update stepFn tps g).2.2 = [1 / (tps : ℚ)] := by
  simp only [Game.Update]
  split
  · right; rfl
  · left; rfl

lemma cpStep_gravity (s : Space) (dt : ℚ) : (cpStep s dt).gravity = s.gravity := by
  simp only [cpStep]
  split <;> rfl

lemma stepN_gravity (n : ℕ) : (stepN n).space.gravity = ⟨0, 100⟩ := by
  induction n with
  | zero => rfl
  | succ n ih =>
      show ((Game.Update cpStep 60 (stepN n)).1).space.gravity = _
      simp only [Game.Update]
      split
      · rw [cpStep_gravity]; exact ih
      · exact ih

lemma update_cpStep_velocity_y (g : Game)
    (ht : g.time + 1 / ((60 : ℕ) : ℚ) < simulateMaxSeconds)
    (hnc : ¬ ballTouchesGround g.space) :
    (Game.Update cpStep 60 g).1.space.ball.velocity.y
      = g.space.ball.velocity.y + (1 / ((60 : ℕ) : ℚ)) * g.space.gravity.y := by
  simp only [Game.Update]
  rw [if_pos ht]
  show (cpStep g.space (1 / ((60 : ℕ) : ℚ))).ball.velocity.y = _
  simp only [cpStep, if_neg hnc, Vector.add, Vector.smul]

end HelloChipmunk

namespace HelloChipmunk

/-! ## Claim theorems -/

/-- C1: every `Game.Update` call made when the simulation clock is at or above
the cutoff (`simulateMaxSeconds = 6`) leaves the physics world unchanged: in
particular the ball body's position and velocity after the call equal their
values before the call, whatever the engine's step function and the reported
TPS value are. -/
theorem update_after_cutoff_world_unchanged (stepFn : Space → ℚ → Space) (tps : ℕ)
    (g : Game) (h : simulateMaxSeconds ≤ g.time) :
    (Game.Update stepFn tps g).1.space = g.space ∧
    (Game.Update stepFn tps g).1.space.ball.position = g.space.ball.position ∧
    (Game.Update stepFn tps g).1.space.ball.velocity = g.space.ball.velocity := by
  have hnn : (0 : ℚ) ≤ 1 / (tps : ℚ) := by positivity
  have hge : ¬ (g.time + 1 / (tps : ℚ) < simulateMaxSeconds) := by
    push_neg
    exact le_add_of_le_of_nonneg h hnn
  have key : (Game.Update stepFn tps g).1.space = g.space := by
    simp only [Game.Update]
    rw [if_neg hge]
  exact ⟨key, by rw [key], by rw [key]⟩

/-- Witness for C1 at a concrete frozen state (clock at 7 ≥ 6). -/
theorem update_after_cutoff_world_unchanged_witness :
    simulateMaxSeconds ≤ ({ space := NewGame.space, time := 7 } : Game).time ∧
    ((Game.Update cpStep 60 { space := NewGame.space, time := 7 }).1.space
        = ({ space := NewGame.space, time := 7 } : Game).space ∧
     (Game.Update cpStep 60 { space := NewGame.space, time := 7 }).1.space.ball.position
        = ({ space := NewGame.space, time := 7 } : Game).space.ball.position ∧
     (Game.Update cpStep 60 { space := NewGame.space, time := 7 }).1.space.ball.velocity
        = ({ space := NewGame.space, time := 7 } : Game).space.ball.velocity) :=
  ⟨by norm_num [simulateMaxSeconds],
   update_after_cutoff_world_unchanged cpStep 60 _ (by norm_num [simulateMaxSeconds])⟩

/-- C2 counterexample: a call made with the clock still strictly below the
cutoff (at 359/60 < 6) does **not** advance the world by one physics step,
because the code increments the clock before comparing it to the cutoff.  The
ball's velocity would change under the step, yet the world is left untouched. -/
theorem update_below_cutoff_may_skip_step :
    ({ space := NewGame.space, time := 359/60 } : Game).time < simulateMaxSeconds ∧
    ¬ ((Game.Update cpStep 60 { space := NewGame.space, time := 359/60 }).1.space
        = cpStep ({ space := NewGame.space, time := 359/60 } : Game).space (1 / ((60:ℕ) : ℚ))) := by
  refine ⟨by norm_num [simulateMaxSeconds], ?_⟩
  have h1 : (Game.Update cpStep 60 { space := NewGame.space, time := 359/60 }).1.space
      = NewGame.space := by
    simp only [Game.Update]
    rw [if_neg (by norm_num [simulateMaxSeconds])]
  have hnc : ¬ ballTouchesGround NewGame.space := by
    norm_num [ballTouchesGround, distSqPointSegment, clamp01, Vector.sub, Vector.add,
      Vector.smul, Vector.dot, Vector.lengthSq, NewGame, screenWidth, screenHeight,
      min_def, max_def]
  have h2 : (cpStep ({ space := NewGame.space, time := 359/60 } : Game).space
        (1 / ((60:ℕ) : ℚ))).ball.velocity.y
      = NewGame.space.ball.velocity.y + (1 / ((60:ℕ) : ℚ)) * NewGame.space.gravity.y := by
    show (cpStep NewGame.space (1 / ((60:ℕ) : ℚ))).ball.velocity.y = _
    simp only [cpStep, if_neg hnc, Vector.add, Vector.smul]
  rw [h1]
  intro heq
  rw [← heq] at h2
  have hv : NewGame.space.ball.velocity.y = 0 := rfl
  have hgy : NewGame.space.gravity.y = 100 := rfl
  rw [hv, hgy] at h2
  norm_num at h2

/-- C2 (amended): a call advances the world by exactly one physics step of the
fixed time step precisely when the clock **after** adding the time step is
still below the cutoff (the code increments the clock before the comparison);
such a call also strictly increases the clock by exactly the time step. -/
theorem update_effectively_below_cutoff_steps (stepFn : Space → ℚ → Space) (tps : ℕ)
    (g : Game) (hpos : 0 < tps)
    (h : g.time + 1 / (tps : ℚ) < simulateMaxSeconds) :
    (Game.Update stepFn tps g).1.space = stepFn g.space (1 / (tps : ℚ)) ∧
    (Game.Update stepFn tps g).1.time = g.time + 1 / (tps : ℚ) ∧
    g.time < (Game.Update stepFn tps g).1.time := by
  refine ⟨?_, update_time stepFn tps g, ?_⟩
  · simp only [Game.Update]
    rw [if_pos h]
  · rw [update_time]
    have h0 : (0 : ℚ) < (tps : ℚ) := by exact_mod_cast hpos
    linarith [one_div_pos.mpr h0]

/-- Witness for the amended C2 at the initial state with the default 60 TPS. -/
theorem update_effectively_below_cutoff_steps_witness :
    0 < 60 ∧
    (NewGame.time + 1 / ((60:ℕ) : ℚ) < simulateMaxSeconds) ∧
    ((Game.Update cpStep 60 NewGame).1.space = cpStep NewGame.space (1 / ((60:ℕ) : ℚ)) ∧
     (Game.Update cpStep 60 NewGame).1.time = NewGame.time + 1 / ((60:ℕ) : ℚ) ∧
     NewGame.time < (Game.Update cpStep 60 NewGame).1.time) :=
  ⟨by norm_num, by norm_num [NewGame, simulateMaxSeconds],
   update_effectively_below_cutoff_steps cpStep 60 NewGame (by norm_num)
     (by norm_num [NewGame, simulateMaxSeconds])⟩

end HelloChipmunk

namespace HelloChipmunk

/-- C3 counterexample: the value passed to the physics advance is `1/MaxTPS`
recomputed at each call, so it is **not** the same constant across every
sequence of `Update` calls: in a two-call run in which `ebiten.MaxTPS()`
reports 60 and then 30 (both calls below the cutoff, both stepping the
world), the two time steps passed to `Space.Step` differ. -/
theorem step_sizes_vary_with_reported_tps :
    ¬ (∀ d1 ∈ (runUpdates cpStep [60, 30] NewGame).2,
        ∀ d2 ∈ (runUpdates cpStep [60, 30] NewGame).2, d1 = d2) := by
  have htr : (runUpdates cpStep [60, 30] NewGame).2
      = [1 / ((60:ℕ) : ℚ), 1 / ((30:ℕ) : ℚ)] := by
    norm_num [runUpdates, Game.Update, NewGame, simulateMaxSeconds]
  intro hall
  have h12 := hall (1 / ((60:ℕ) : ℚ)) (by rw [htr]; simp)
    (1 / ((30:ℕ) : ℚ)) (by rw [htr]; simp)
  norm_num at h12

/-- C3 (amended): the time step passed to every physics advance is `1/MaxTPS`
sampled at that call; it is one constant across the run provided
`ebiten.MaxTPS()` reports the same value at every call. -/
theorem step_sizes_constant_of_constant_tps (stepFn : Space → ℚ → Space) (tps : ℕ)
    (ts : List ℕ) (g : Game) (h : ∀ t ∈ ts, t = tps) :
    ∀ d ∈ (runUpdates stepFn ts g).2, d = 1 / (tps : ℚ) := by
  revert h
  induction ts generalizing g with
  | nil =>
      intro _ d hd
      simp [runUpdates] at hd
  | cons t rest ih =>
      intro h d hd
      have ht : t = tps := h t (List.mem_cons_self t rest)
      have hrest : ∀ u ∈ rest, u = tps := fun u hu => h u (List.mem_cons_of_mem t hu)
      simp only [runUpdates] at hd
      rw [List.mem_append] at hd
      rcases hd with hd | hd
      · rcases update_trace stepFn t g with he | he <;> rw [he] at hd
        · simp at hd
        · rw [List.mem_singleton] at hd
          rw [hd, ht]
      · exact ih _ hrest d hd

/-- Witness for the amended C3: a two-call run with a constant 60 TPS. -/
theorem step_sizes_constant_of_constant_tps_witness :
    (∀ t ∈ ([60, 60] : List ℕ), t = 60) ∧
    ∀ d ∈ (runUpdates cpStep [60, 60] NewGame).2, d = 1 / ((60:ℕ) : ℚ) :=
  ⟨by simp, step_sizes_constant_of_constant_tps cpStep 60 [60, 60] NewGame (by simp)⟩

/-- C4 counterexample: at a state whose clock is exactly at the cutoff, an
`Update` call changes the clock, because `g.time += timeStep` runs on every
call, before and regardless of the cutoff comparison. -/
theorem clock_advances_even_after_cutoff :
    simulateMaxSeconds ≤ ({ space := NewGame.space, time := 6 } : Game).time ∧
    ¬ ((Game.Update cpStep 60 { space := NewGame.space, time := 6 }).1.time
        = ({ space := NewGame.space, time := 6 } : Game).time) := by
  refine ⟨by norm_num [simulateMaxSeconds], ?_⟩
  rw [update_time]
  norm_num

/-- C4 (amended): the simulation clock advances by exactly one time step on
**every** `Update` call, including calls made at or above the cutoff; it is
only the physics world that freezes at the cutoff, not the clock. -/
theorem update_clock_always_advances (stepFn : Space → ℚ → Space) (tps : ℕ)
    (g : Game) (hpos : 0 < tps) :
    (Game.Update stepFn tps g).1.time = g.time + 1 / (tps : ℚ) ∧
    g.time < (Game.Update stepFn tps g).1.time := by
  refine ⟨update_time stepFn tps g, ?_⟩
  rw [update_time]
  have h0 : (0 : ℚ) < (tps : ℚ) := by exact_mod_cast hpos
  linarith [one_div_pos.mpr h0]

/-- Witness for the amended C4 at a state already past the cutoff. -/
theorem update_clock_always_advances_witness :
    0 < 60 ∧
    ((Game.Update cpStep 60 { space := NewGame.space, time := 9 }).1.time
        = ({ space := NewGame.space, time := 9 } : Game).time + 1 / ((60:ℕ) : ℚ) ∧
     ({ space := NewGame.space, time := 9 } : Game).time
        < (Game.Update cpStep 60 { space := NewGame.space, time := 9 }).1.time) :=
  ⟨by norm_num, update_clock_always_advances cpStep 60 _ (by norm_num)⟩

/-- C5: `NewGame` constructs exactly the example scenario: gravity `(0, 100)`,
a dynamic (non-static) ball of radius 5 and mass 1 at rest at `(400, 150)`,
a ground segment attached to the static body running from `(0, 0)` to
`(800, 600)`, the clock at 0, and a simulation cutoff of 6 seconds. -/
theorem newGame_scenario_constants :
    NewGame.space.gravity = ⟨0, 100⟩ ∧
    NewGame.space.ball.isStatic = false ∧
    NewGame.space.ballShape.radius = 5 ∧
    NewGame.space.ball.mass = 1 ∧
    NewGame.space.ball.position = ⟨400, 150⟩ ∧
    NewGame.space.ball.velocity = ⟨0, 0⟩ ∧
    NewGame.space.ground.bodyIsStatic = true ∧
    NewGame.space.ground.a = ⟨0, 0⟩ ∧
    NewGame.space.ground.b = ⟨800, 600⟩ ∧
    NewGame.time = 0 ∧
    simulateMaxSeconds = 6 := by
  refine ⟨rfl, rfl, rfl, rfl, ?_, rfl, rfl, rfl, rfl, rfl, rfl⟩
  norm_num [NewGame, screenWidth, screenHeight]

/-- C6: the update loop is deterministic: two runs started from equal game
states, driven by the same step function and the same per-call TPS values,
produce equal sequences of ball positions and velocities. -/
theorem update_runs_deterministic (stepFn : Space → ℚ → Space) (tpsSeq : List ℕ)
    (g1 g2 : Game) (h : g1 = g2) :
    posVelSeq stepFn tpsSeq g1 = posVelSeq stepFn tpsSeq g2 := by
  rw [h]

/-- Witness for C6: two identical three-call runs from `NewGame`. -/
theorem update_runs_deterministic_witness :
    NewGame = NewGame ∧
    posVelSeq cpStep [60, 60, 60] NewGame = posVelSeq cpStep [60, 60, 60] NewGame :=
  ⟨rfl, update_runs_deterministic cpStep [60, 60, 60] NewGame NewGame rfl⟩

end HelloChipmunk

namespace HelloChipmunk

/-- C7: `Game.Draw` reads the physics state but never mutates it: for every
game state and every screen, the game component returned by `Draw` — hence the
world, the ball body's position and velocity, and the simulation clock — is
identical to the input game state. -/
theorem draw_reads_but_does_not_mutate (g : Game) (screen : List DrawCmd) :
    (Game.Draw g screen).1 = g ∧
    (Game.Draw g screen).1.space.ball.position = g.space.ball.position ∧
    (Game.Draw g screen).1.space.ball.velocity = g.space.ball.velocity ∧
    (Game.Draw g screen).1.time = g.time :=
  ⟨rfl, rfl, rfl, rfl⟩

/-- C8: `Game.Update` never reports a failure: the error value it returns is
`none` (`nil`) for every game state, step function and TPS value. -/
theorem update_never_errors (stepFn : Space → ℚ → Space) (tps : ℕ) (g : Game) :
    (Game.Update stepFn tps g).2.1 = none := by
  simp only [Game.Update]
  split <;> rfl

/-- C9: starting from the initial scenario, as long as the ball has not yet
touched the ground shape, each `Update` call made (effectively) before the
cutoff strictly increases the ball's downward velocity component.  The
external integrator is spec-modelled (`cpStep`). -/
theorem freefall_downward_velocity_increasing (n : ℕ)
    (hc : ∀ k, k ≤ n → ¬ ballTouchesGround (stepN k).space)
    (ht : (stepN n).time + 1 / ((60 : ℕ) : ℚ) < simulateMaxSeconds) :
    downwardVelocity (stepN n) < downwardVelocity (stepN (n + 1)) := by
  have hnc := hc n le_rfl
  have hv := update_cpStep_velocity_y (stepN n) ht hnc
  have hg : (stepN n).space.gravity = ⟨0, 100⟩ := stepN_gravity n
  show downwardVelocity (stepN n) < downwardVelocity ((Game.Update cpStep 60 (stepN n)).1)
  unfold downwardVelocity
  rw [hv, hg]
  have h100 : (Vector.mk (0 : ℚ) 100).y = 100 := rfl
  rw [h100]
  have hpos : (0 : ℚ) < 1 / ((60 : ℕ) : ℚ) * 100 := by norm_num
  linarith

/-- Witness for C9: the very first `Update` call, where the ball at
`(400, 150)` is far above the ground and the clock is far below the cutoff. -/
theorem freefall_downward_velocity_increasing_witness :
    (∀ k, k ≤ 0 → ¬ ballTouchesGround (stepN k).space) ∧
    (stepN 0).time + 1 / ((60 : ℕ) : ℚ) < simulateMaxSeconds ∧
    downwardVelocity (stepN 0) < downwardVelocity (stepN (0 + 1)) := by
  have hnc : ¬ ballTouchesGround (stepN 0).space := by
    norm_num [stepN, ballTouchesGround, distSqPointSegment, clamp01, Vector.sub,
      Vector.add, Vector.smul, Vector.dot, Vector.lengthSq, NewGame, screenWidth,
      screenHeight, min_def, max_def]
  have hc : ∀ k, k ≤ 0 → ¬ ballTouchesGround (stepN k).space := by
    intro k hk
    rw [Nat.le_zero.mp hk]
    exact hnc
  have ht : (stepN 0).time + 1 / ((60 : ℕ) : ℚ) < simulateMaxSeconds := by
    norm_num [stepN, NewGame, simulateMaxSeconds]
  exact ⟨hc, ht, freefall_downward_velocity_increasing 0 hc ht⟩

/-- C10: `Game.Layout` ignores both of its integer arguments and returns
exactly `(800, 600)` for every game state and every pair of dimensions. -/
theorem layout_ignores_arguments (g : Game) (outsideWidth outsideHeight : ℤ) :
    Game.Layout g outsideWidth outsideHeight = (800, 600) := rfl

end HelloChipmunk
